import Mathlib

/-!
Verification of the streaming data-analysis server (Agent-SIMA-3).

This file shallow-embeds the core components of the repository in Lean 4 and
proves (or refutes) the frozen specification claims about them:

* `server/serialization_engine.py` — `SerializationEngine.serialize_value`
  and `_serialize_float`;
* `server/error_handler.py` — `ComponentCircuitBreaker` (state machine,
  `call`, `_record_success`, `_record_failure`, `_should_attempt_reset`);
* `server/streaming_controller.py` — `StreamingState` and
  `stream_field_incrementally`;
* `server/validation_engine.py` — `ValidationEngine.validate_python_code`,
  `_validate_code_security`, `_has_corruption_indicators`;
* `server/code_executor.py` — `CodeExecutor.execute_code`,
  `_validate_and_fix_code`, `_basic_code_validation`, `validate_code`,
  `_extract_results`;
* `server/response_manager.py` — `ResponseManager.process_llm_response`,
  `_validate_response`, `_attempt_recovery`, `_rollback_response`,
  `_stream_validated_response`.

Machine integers and floats are modelled symbolically (`PyFloat` separates
NaN, the two infinities and finite values); wall-clock time is passed
explicitly as an integer number of seconds; Python functions external to this
repository (the Python parser `ast.parse`, the regex-based repair helpers
that are only reachable on inputs our theorems never produce, and the
wrapped async callables) are universally quantified oracles, so every
theorem holds for all of their behaviours.
-/

namespace SIMA3

/-! ## Value serializer (`server/serialization_engine.py`)

A Python `float` is NaN, one of the two infinities, or a finite value
(modelled as a rational). -/

inductive PyFloat where
  | nan
  | posInf
  | negInf
  | finite (q : ℚ)
deriving DecidableEq, Repr

/-- JSON-safe output values produced by the serializer (the fragment needed
by the claims: `null`, strings, ints, bools and floats; a float in the
output may still be non-finite, which is exactly what claim C1 is about). -/
inductive SerValue where
  | null
  | str (s : String)
  | int (n : ℤ)
  | bool (b : Bool)
  | float (f : PyFloat)
deriving DecidableEq, Repr

/-- Python runtime values fed to `serialize_value`, restricted to the
universe the claims are about:

* `none`, `bool`, `int`, `str` — basic values, returned unchanged;
* `float` — a plain Python `float` (no `dtype` attribute);
* `npFloat` — a numpy `float64` scalar: it has a `dtype` attribute whose
  string form `"float64"` contains `"float"` (and not `"int"`), and it is
  an `isinstance` of `float` because `numpy.float64` subclasses `float`;
* `obj` — a generic object with no special capabilities (`dtype`,
  `tolist`, `isoformat`, `to_json` all absent, `pd.isna` returns `False`),
  whose `str()` has the given value and may raise (`strRaises`). -/
inductive PyValue where
  | none
  | bool (b : Bool)
  | int (n : ℤ)
  | str (s : String)
  | float (f : PyFloat)
  | npFloat (f : PyFloat)
  | obj (tyName strVal : String) (strRaises : Bool)
deriving DecidableEq, Repr

/-- `type(value).__name__` for the embedded universe. -/
def pyTypeName : PyValue → String
  | .none => "NoneType"
  | .bool _ => "bool"
  | .int _ => "int"
  | .str _ => "str"
  | .float _ => "float"
  | .npFloat _ => "float64"
  | .obj t _ _ => t

/-- `SerializationEngine._serialize_float` (serialization_engine.py,
lines 114-122): NaN becomes `None`, the infinities become the sentinel
strings, every other float is returned unchanged. -/
def serialize_float : PyFloat → SerValue
  | .nan => .null
  | .posInf => .str "Infinity"
  | .negInf => .str "-Infinity"
  | .finite q => .float (.finite q)

/-- The body of `SerializationEngine.serialize_value` (the code inside its
`try:` block, lines 47-105), following the source's dispatch order:

1. `None`/`str`/`int`/`bool` are returned unchanged;
2. a value with a `dtype` whose string contains `"int"` is returned as
   `int(value)`; one whose `dtype` string contains `"float"` is returned as
   `float(value)` — note that this branch fires for numpy floats *before*
   the `isinstance(value, float)` branch, so `_serialize_float` is skipped;
3. a plain `float` goes through `_serialize_float`;
4. a generic object reaches the final fallback `str(value)`, which is the
   only point of the embedded universe where an exception can escape the
   branch (a user-defined `__str__` may raise).

An `Except` result models an exception escaping the body. -/
def serializeBody : PyValue → Except String SerValue
  | .none => .ok .null
  | .bool b => .ok (.bool b)
  | .int n => .ok (.int n)
  | .str s => .ok (.str s)
  | .npFloat f => .ok (.float f)
  | .float f => .ok (serialize_float f)
  | .obj _ strVal strRaises =>
      if strRaises then .error "__str__ raised" else .ok (.str strVal)

/-- `SerializationEngine.serialize_value` (lines 35-112): the body wrapped
in the catch-all `except` that turns any escaping exception into the
placeholder string `"<Serialization Error: {type(value).__name__}>"`. -/
def serialize_value (v : PyValue) : SerValue :=
  match serializeBody v with
  | .ok r => r
  | .error _ => .str ("<Serialization Error: " ++ pyTypeName v ++ ">")

/-! ## Circuit breaker (`server/error_handler.py`) -/

/-- `ComponentState` (error_handler.py, lines 19-25). -/
inductive ComponentState where
  | healthy
  | degraded
  | failing
  | circuitOpen
  | recovering
deriving DecidableEq, Repr

/-- `ErrorStats` (lines 28-48). Wall-clock timestamps are integers
(seconds). -/
structure ErrorStats where
  total_requests : ℕ := 0
  successful_requests : ℕ := 0
  failed_requests : ℕ := 0
  last_failure_time : Option ℤ := none
  consecutive_failures : ℕ := 0
  circuit_open_time : Option ℤ := none
deriving DecidableEq, Repr

/-- `ErrorStats.failure_rate` (lines 38-43): `failed / total` as an exact
rational (`Rat.divInt` is the quotient `failed_requests / total_requests`
of the two counters), `0.0` when no request was made. -/
def ErrorStats.failure_rate (s : ErrorStats) : ℚ :=
  if s.total_requests = 0 then 0
  else Rat.divInt (s.failed_requests : ℤ) (s.total_requests : ℤ)

/-- `CircuitBreakerConfig` (lines 51-58), defaults included
(`failure_rate_threshold` is the source's `0.5`). -/
structure CircuitBreakerConfig where
  failure_threshold : ℕ := 5
  failure_rate_threshold : ℚ := mkRat 1 2
  timeout : ℤ := 60
  recovery_timeout : ℤ := 30
  max_requests_half_open : ℕ := 3
deriving DecidableEq, Repr

/-- `ComponentCircuitBreaker` (lines 61-69): config, state, stats, and the
half-open request counter. -/
structure ComponentCircuitBreaker where
  config : CircuitBreakerConfig
  state : ComponentState := .healthy
  stats : ErrorStats := {}
  half_open_requests : ℕ := 0
deriving DecidableEq, Repr

/-- `ComponentCircuitBreaker._record_success` (lines 96-106). -/
def ComponentCircuitBreaker.record_success
    (cb : ComponentCircuitBreaker) : ComponentCircuitBreaker :=
  let stats := { cb.stats with
    successful_requests := cb.stats.successful_requests + 1
    consecutive_failures := 0 }
  let state :=
    if cb.state = .recovering then
      if cb.half_open_requests ≥ cb.config.max_requests_half_open then
        ComponentState.healthy
      else cb.state
    else if cb.state = .degraded ∨ cb.state = .failing then
      ComponentState.healthy
    else cb.state
  { cb with stats := stats, state := state }

/-- `ComponentCircuitBreaker._record_failure` (lines 108-125), with the
current wall-clock time passed explicitly. -/
def ComponentCircuitBreaker.record_failure
    (cb : ComponentCircuitBreaker) (now : ℤ) : ComponentCircuitBreaker :=
  let stats := { cb.stats with
    failed_requests := cb.stats.failed_requests + 1
    consecutive_failures := cb.stats.consecutive_failures + 1
    last_failure_time := some now }
  if stats.consecutive_failures ≥ cb.config.failure_threshold ∨
      stats.failure_rate ≥ cb.config.failure_rate_threshold then
    { cb with stats := { stats with circuit_open_time := some now },
              state := .circuitOpen }
  else if stats.consecutive_failures ≥ 2 then
    { cb with stats := stats, state := .degraded }
  else if stats.consecutive_failures ≥ 1 then
    { cb with stats := stats, state := .failing }
  else
    { cb with stats := stats }

/-- `ComponentCircuitBreaker._should_attempt_reset` (lines 127-132). -/
def ComponentCircuitBreaker.should_attempt_reset
    (cb : ComponentCircuitBreaker) (now : ℤ) : Bool :=
  match cb.stats.circuit_open_time with
  | Option.none => false
  | some t => decide (now - t ≥ cb.config.timeout)

/-- The observable outcome of one `call`: either the breaker refused the
call by raising `CircuitBreakerOpenError` (the wrapped function is not
invoked), or the wrapped function was invoked and succeeded/failed. -/
inductive CallOutcome where
  | refused
  | invoked (success : Bool)
deriving DecidableEq, Repr

/-- Second half of `ComponentCircuitBreaker.call` (lines 80-94): the
`RECOVERING` cap check, the `total_requests` increment, the invocation of
the wrapped function and the success/failure bookkeeping.
`funcSucceeds` tells whether the wrapped awaitable would succeed. -/
def ComponentCircuitBreaker.callFromRecoveringCheck
    (cb : ComponentCircuitBreaker) (now : ℤ) (funcSucceeds : Bool) :
    CallOutcome × ComponentCircuitBreaker :=
  if cb.state = .recovering ∧
      cb.half_open_requests ≥ cb.config.max_requests_half_open then
    (.refused, cb)
  else
    let cb :=
      if cb.state = .recovering then
        { cb with half_open_requests := cb.half_open_requests + 1 }
      else cb
    let cb := { cb with stats :=
      { cb.stats with total_requests := cb.stats.total_requests + 1 } }
    if funcSucceeds then (.invoked true, cb.record_success)
    else (.invoked false, cb.record_failure now)

/-- `ComponentCircuitBreaker.call` (lines 71-94). The wrapped async
function is reduced to whether it would succeed; the breaker never invokes
it on a refused call. -/
def ComponentCircuitBreaker.call (cb : ComponentCircuitBreaker) (now : ℤ)
    (funcSucceeds : Bool) : CallOutcome × ComponentCircuitBreaker :=
  if cb.state = .circuitOpen then
    if cb.should_attempt_reset now then
      callFromRecoveringCheck
        { cb with state := .recovering, half_open_requests := 0 }
        now funcSucceeds
    else (.refused, cb)
  else
    callFromRecoveringCheck cb now funcSucceeds

/-! ## Streaming controller (`server/streaming_controller.py`)

Field contents are modelled as `List Char` (Python strings are character
sequences; slicing is `List.take`/`List.drop`).  WebSocket sends are
modelled as succeeding: a failing send aborts the call through an external
exception, which is outside the embedded universe. -/

/-- `StreamingState` (streaming_controller.py, lines 18-32): the per-field
cursor dictionary and the total number of characters sent.
(`is_streaming`/`last_event` do not affect `stream_field_incrementally`
when sends succeed and are omitted.) -/
structure StreamingState where
  field_positions : List (String × ℕ)
  total_sent : ℕ
deriving DecidableEq, Repr

/-- `field_positions.get(field, 0)`. -/
def StreamingState.getPos (st : StreamingState) (f : String) : ℕ :=
  match st.field_positions.find? (fun p => p.1 == f) with
  | some p => p.2
  | Option.none => 0

/-- Python dict assignment `positions[field] = n`: replace the binding in
place if present, otherwise append it. -/
def setPos (l : List (String × ℕ)) (f : String) (n : ℕ) :
    List (String × ℕ) :=
  if (l.find? (fun p => p.1 == f)).isSome then
    l.map (fun p => if p.1 == f then (f, n) else p)
  else l ++ [(f, n)]

/-- The fresh `StreamingState` made by `stream_response` (lines 72-77) after
`__post_init__` fills the empty cursor dictionary (lines 26-32). -/
def freshStreamingState : StreamingState :=
  { field_positions :=
      [("initial_response", 0), ("generated_code", 0),
       ("result_commentary", 0)]
    total_sent := 0 }

/-- One `delta` event sent over the websocket (lines 154-159). -/
structure DeltaEvent where
  field : String
  delta : List Char
  position : ℕ
deriving DecidableEq, Repr

/-- Split a character list into consecutive pieces of `size` characters
(the last may be shorter) — the `for i in range(0, len(new_content),
chunk_size)` loop.  Fueled so the recursion is structural; with fuel at
least the list's length and `size ≥ 1` the fuel never runs out. -/
def chunkPiecesF (size : ℕ) : ℕ → List Char → List (List Char)
  | _, [] => []
  | 0, _ :: _ => []
  | fuel + 1, c :: rest =>
      (c :: rest).take size :: chunkPiecesF size fuel ((c :: rest).drop size)

/-- The chunk pieces of a list, with enough fuel. -/
def chunkPieces (size : ℕ) (l : List Char) : List (List Char) :=
  chunkPiecesF size l.length l

/-- The sequence of `delta` events sent for the pieces, with the running
`position = current_pos + i` offsets. -/
def deltaEvents (field : String) (base size : ℕ) :
    ℕ → List (List Char) → List DeltaEvent
  | _, [] => []
  | i, p :: ps => ⟨field, p, base + i⟩ :: deltaEvents field base size (i + size) ps

/-- `StreamingController.stream_field_incrementally` (lines 118-176) with
all sends succeeding: if the content extends past the cursor, send
`content[current_pos:]` in `chunk_size` pieces, add the sent lengths to
`total_sent`, and set the cursor to `len(content)`; otherwise send nothing
and leave the state untouched. -/
def stream_field_incrementally (st : StreamingState) (field : String)
    (content : List Char) (size : ℕ) : List DeltaEvent × StreamingState :=
  let pos := st.getPos field
  if content.length > pos then
    let newContent := content.drop pos
    let pieces := chunkPieces size newContent
    let events := deltaEvents field pos size 0 pieces
    (events,
      { field_positions := setPos st.field_positions field content.length
        total_sent := st.total_sent + (pieces.map List.length).sum })
  else ([], st)

/-! ## String scanners

Executable embeddings of the Python `in` substring test and of the small
fixed set of regular expressions used by the validation engine.  Regex
classes: `\s` is Python whitespace, `\w` is alphanumeric-or-underscore,
`\b` is a word boundary; `re.IGNORECASE` is modelled by lowercasing the
scanned text (the patterns are already lowercase). -/

/-- `listPrefix p l`: `p` is a prefix of `l`. -/
def listPrefix : List Char → List Char → Bool
  | [], _ => true
  | _ :: _, [] => false
  | a :: as, b :: bs => a = b && listPrefix as bs

/-- `needle` occurs as a contiguous substring of the second list
(Python `needle in hay`). -/
def listContainsSub (needle : List Char) : List Char → Bool
  | [] => listPrefix needle []
  | c :: rest => listPrefix needle (c :: rest) || listContainsSub needle rest

/-- Python `sub in hay` on strings. -/
def strContainsSub (hay sub : String) : Bool :=
  listContainsSub sub.toList hay.toList

/-- `str.lower()`. -/
def lowerStr (s : String) : String := ⟨s.toList.map Char.toLower⟩

/-- Python `\s` (also the default `str.strip()` character set):
space, tab, newline, carriage return, vertical tab, form feed. -/
def isPySpace (c : Char) : Bool :=
  c = ' ' || c = '\t' || c = '\n' || c = '\r' ||
  c = Char.ofNat 11 || c = Char.ofNat 12

/-- Python `\w`. -/
def isWordChar (c : Char) : Bool := c.isAlphanum || c = '_'

/-- `bool(s.strip())`: `s` has a non-whitespace character. -/
def stripNonEmpty (s : String) : Bool := s.toList.any (fun c => !isPySpace c)

/-- A `\b` word boundary before the current position, given the previous
character (`none` at the start of the text). -/
def wordBoundaryB : Option Char → Bool
  | Option.none => true
  | some p => !isWordChar p

/-- The continuation `\s*\(` of the call-style danger patterns. -/
def afterParen (rest : List Char) : Bool :=
  match rest.dropWhile isPySpace with
  | '(' :: _ => true
  | _ => false

/-- The continuation `\.` of the attribute-style danger patterns. -/
def afterDot (rest : List Char) : Bool :=
  match rest with
  | '.' :: _ => true
  | _ => false

/-- `re.search` for `\b<word><after>`: some position has a word boundary,
the literal word, and then the continuation. -/
def scanWordThen (word : List Char) (after : List Char → Bool) :
    Option Char → List Char → Bool
  | _, [] => false
  | prev, c :: rest =>
      (wordBoundaryB prev && listPrefix word (c :: rest) &&
        after ((c :: rest).drop word.length))
      || scanWordThen word after (some c) rest

/-- Negative lookahead `(?!["'])`: the next character, if any, is neither a
double quote nor an apostrophe. -/
def notQuoteHead : List Char → Bool
  | [] => true
  | c :: _ => !(c = '"' || c = Char.ofNat 39)

/-- `re.search` for `\\n(?!["'])` / `\\t(?!["'])` (with `esc` the letter):
a literal backslash, the letter, and no quote right after. -/
def scanEscCorruption (esc : Char) : List Char → Bool
  | [] => false
  | '\\' :: c :: rest =>
      (c = esc && notQuoteHead rest) || scanEscCorruption esc (c :: rest)
  | _ :: rest => scanEscCorruption esc rest

/-- `\]\s+\]` (resp. `\)\s+\)`) matches at the head of the list: the
bracket, at least one whitespace character, then the bracket again. -/
def dupCloseAt (br : Char) : List Char → Bool
  | [] => false
  | c :: rest =>
      c = br &&
      (match rest with
       | c2 :: _ =>
           isPySpace c2 && ((rest.dropWhile isPySpace).head? == some br)
       | [] => false)

/-- `re.search` for `\]\s+\]` / `\)\s+\)`. -/
def scanDupClose (br : Char) : List Char → Bool
  | [] => false
  | c :: rest => dupCloseAt br (c :: rest) || scanDupClose br rest

/-- Consume a literal prefix, or fail. -/
def expectPrefix (p l : List Char) : Option (List Char) :=
  if listPrefix p l then some (l.drop p.length) else Option.none

/-- Consume `\d+` (at least one digit, maximally), or fail. -/
def expectDigits1 : List Char → Option (List Char)
  | [] => Option.none
  | c :: rest =>
      if c.isDigit then some (rest.dropWhile Char.isDigit) else Option.none

/-- `== \d+\] == \d+\]` matches at the head of the list. -/
def eqNumAt (l : List Char) : Bool :=
  (do
    let l1 ← expectPrefix "== ".toList l
    let l2 ← expectDigits1 l1
    let l3 ← expectPrefix "] == ".toList l2
    let l4 ← expectDigits1 l3
    expectPrefix "]".toList l4).isSome

/-- `re.search` for `== \d+\] == \d+\]`. -/
def scanEqNum : List Char → Bool
  | [] => false
  | c :: rest => eqNumAt (c :: rest) || scanEqNum rest

/-- `\b(read|write|delete|remove)\b` matches at the head and a literal
`.csv`/`.xlsx`/`.txt`/`.json` occurs later on the same line (the regex `.`
does not match a newline). -/
def extSeekSameLine : List Char → Bool
  | [] => false
  | c :: rest =>
      if c = '\n' then false
      else
        listPrefix ".csv".toList (c :: rest) ||
        listPrefix ".xlsx".toList (c :: rest) ||
        listPrefix ".txt".toList (c :: rest) ||
        listPrefix ".json".toList (c :: rest) ||
        extSeekSameLine rest

/-- The four file-operation words of the warning regex. -/
def fileOpWords : List String := ["read", "write", "delete", "remove"]

/-- `re.search` for `\b(read|write|delete|remove)\b.*\.(csv|xlsx|txt|json)`
(case already lowered by the caller). -/
def scanFileOpWords : Option Char → List Char → Bool
  | _, [] => false
  | prev, c :: rest =>
      (wordBoundaryB prev &&
        fileOpWords.any (fun w =>
          listPrefix w.toList (c :: rest) &&
          (match (c :: rest).drop w.length with
           | [] => true
           | c2 :: _ => !isWordChar c2) &&
          extSeekSameLine ((c :: rest).drop w.length)))
      || scanFileOpWords (some c) rest

/-! ## Validation engine (`server/validation_engine.py`) -/

/-- `ValidationResult` (validation_engine.py, lines 18-24). -/
structure ValidationResult where
  is_valid : Bool
  errors : List String
  warnings : List String
  cleaned_content : Option String := none
deriving DecidableEq, Repr

/-- One pattern of `_validate_code_security`'s denylist: the identifier,
whether it is the attribute form (`\.`) or the call form (`\s*\(`), and
the literal regex source used in the error message. -/
structure DangerPat where
  word : String
  dot : Bool
  src : String
deriving DecidableEq, Repr

/-- The denylist of `_validate_code_security` (lines 305-314), in source
order. -/
def dangerPats : List DangerPat :=
  [⟨"exec", false, "\\bexec\\s*\\("⟩,
   ⟨"eval", false, "\\beval\\s*\\("⟩,
   ⟨"__import__", false, "\\b__import__\\s*\\("⟩,
   ⟨"open", false, "\\bopen\\s*\\("⟩,
   ⟨"file", false, "\\bfile\\s*\\("⟩,
   ⟨"os", true, "\\bos\\."⟩,
   ⟨"sys", true, "\\bsys\\."⟩,
   ⟨"subprocess", true, "\\bsubprocess\\."⟩]

/-- `ValidationEngine._validate_code_security` (lines 299-325): each
denylist pattern found in the code adds a hard error; the file-operation
regex only adds a warning; the result is valid iff no pattern matched.
Both regex searches use `re.IGNORECASE`, hence the lowering. -/
def validate_code_security (code : String) : ValidationResult :=
  let cl := (lowerStr code).toList
  let errors := dangerPats.filterMap (fun p =>
    if scanWordThen p.word.toList (if p.dot then afterDot else afterParen)
        Option.none cl then
      some ("Dangerous operation detected: " ++ p.src)
    else Option.none)
  let warnings :=
    if scanFileOpWords Option.none cl then
      ["File operation detected - ensure it's safe"]
    else []
  ⟨errors.isEmpty, errors, warnings, Option.none⟩

/-- `ValidationEngine._has_corruption_indicators` (lines 327-342): any of
the six corruption regexes matches (these are case sensitive). -/
def has_corruption_indicators (content : String) : Bool :=
  let cl := content.toList
  scanEscCorruption 'n' cl || scanEscCorruption 't' cl ||
  scanDupClose ']' cl || scanDupClose ')' cl ||
  listContainsSub "n\\f[".toList cl || scanEqNum cl

/-- The tail of `validate_python_code` once a syntactically valid
`cleaned_content` is at hand (lines 159-167): run the security scan; hard
security errors make the result invalid, security warnings are appended. -/
def securityPhase (cleaned : String) (warnings : List String) :
    ValidationResult :=
  let sec := validate_code_security cleaned
  if sec.is_valid then ⟨true, [], warnings ++ sec.warnings, some cleaned⟩
  else ⟨false, sec.errors, warnings, some cleaned⟩

/-- `ValidationEngine.validate_python_code` (lines 113-172).

Two pieces of behaviour live outside this repository and are passed as
oracles, so every theorem about this function holds for all of their
behaviours:

* `parse` — CPython's `ast.parse`: `none` means the code parses, `some m`
  means it raises `SyntaxError` with message `m`;
* `fixSyntax` — `_fix_syntax_errors` (lines 273-297) and `cleanEscapes` —
  `_clean_escape_sequences` (lines 250-271), regex-based repair helpers
  that are only invoked on the corruption/syntax-error paths, which none
  of the concrete inputs of the claims reach.

Control flow, faithful to the source: blank code is trivially valid; a
corrupted-looking input is first cleaned; the (possibly cleaned) code is
parsed, with one auto-fix retry on syntax error; a parse failure that the
fix does not cure is a hard `Syntax error`; on parse success the security
scan may still produce hard errors. -/
def validate_python_code (parse : String → Option String)
    (fixSyntax : String → Option String) (cleanEscapes : String → String)
    (code : String) : ValidationResult :=
  if !stripNonEmpty code then ⟨true, [], [], some code⟩
  else
    let cw :=
      if has_corruption_indicators code then
        let cc := cleanEscapes code
        if cc ≠ code then (cc, ["Cleaned escape sequences in code"])
        else (code, ([] : List String))
      else (code, [])
    let cleaned := cw.1
    let w1 := cw.2
    match parse cleaned with
    | Option.none => securityPhase cleaned w1
    | some emsg =>
        match fixSyntax cleaned with
        | some fixed =>
            match parse fixed with
            | Option.none =>
                securityPhase fixed (w1 ++ ["Auto-fixed syntax error: " ++ emsg])
            | some _ =>
                ⟨false, ["Syntax error: " ++ emsg], w1, some cleaned⟩
        | Option.none =>
            ⟨false, ["Syntax error: " ++ emsg], w1, some cleaned⟩

/-! ## Code sandbox executor (`server/code_executor.py`) -/

/-- The substring denylist of `CodeExecutor.validate_code`
(code_executor.py, lines 392-398), in source order. -/
def dangerousPatternsCE : List String :=
  ["import os", "import sys", "import subprocess", "import shutil",
   "open(", "file(", "exec(", "eval(",
   "globals()", "locals()", "vars()", "dir()",
   "getattr(", "setattr(", "delattr(",
   "input(", "raw_input("]

/-- The allow-listed safe-import substrings of `CodeExecutor.validate_code`
(lines 401-414). -/
def safeImportsCE : List String :=
  ["import pandas", "import numpy", "import plotly", "import json",
   "from pandas", "from numpy", "from plotly", "from json",
   "import datetime", "import time", "import calendar", "import math",
   "import statistics", "import random", "import collections",
   "import itertools",
   "import functools", "import re", "import string", "import decimal",
   "import fractions", "import operator", "import copy", "import pickle",
   "import csv", "import io", "import pathlib", "import warnings",
   "from datetime", "from time", "from calendar", "from math",
   "from statistics", "from random", "from collections", "from itertools",
   "from functools", "from re", "from string", "from decimal",
   "from fractions", "from operator", "from copy", "from csv",
   "from io", "from pathlib", "from warnings", "from typing"]

/-- Unconditionally rejected filesystem-mutation keywords (line 427). -/
def fsOpsCE : List String := ["remove", "delete", "rmdir", "unlink"]

/-- Unconditionally rejected network keywords (line 431). -/
def netOpsCE : List String := ["urllib", "requests", "socket", "http"]

/-- `CodeExecutor.validate_code` (lines 381-434): lowercase the code; a
denylist substring is fatal unless *any* safe-import substring occurs
anywhere in the code; then the filesystem and network keyword checks.
Returns `(is_safe, error_message)`.  Note this standalone checker is called
only by the HTTP `execute-code` endpoint (app.py, line 302) — *not* by
`CodeExecutor.execute_code`. -/
def validate_code (code : String) : Bool × String :=
  let cl := lowerStr code
  let isSafeImport := safeImportsCE.any (fun s => strContainsSub cl s)
  match dangerousPatternsCE.find? (fun p => strContainsSub cl p && !isSafeImport) with
  | some p => (false, "Potentially dangerous operation detected: " ++ p)
  | Option.none =>
      if fsOpsCE.any (fun o => strContainsSub cl o) then
        (false, "File system modification operations are not allowed")
      else if netOpsCE.any (fun o => strContainsSub cl o) then
        (false, "Network operations are not allowed")
      else (true, "")

/-- `CodeExecutor._basic_code_validation` (lines 180-206), the fallback
used when the validation engine cannot be imported.  `parse` is the
`ast.parse` oracle, `bsFix` the `_fix_basic_trailing_backslash` helper
(lines 208-235), reachable only on a parse failure. -/
def basic_code_validation (parse : String → Option String)
    (bsFix : String → Option String) (code : String) :
    Option String × List String :=
  match parse code with
  | Option.none => (some code, [])
  | some emsg =>
      if strContainsSub emsg "unexpected EOF while parsing" then
        match bsFix code with
        | some fc =>
            match parse fc with
            | Option.none => (some fc, ["Fixed trailing backslash syntax error"])
            | some _ => (Option.none, ["Syntax error: " ++ emsg])
        | Option.none => (Option.none, ["Syntax error: " ++ emsg])
      else (Option.none, ["Syntax error: " ++ emsg])

/-- `CodeExecutor._validate_and_fix_code` (lines 138-178), validation-engine
path: run `validate_python_code`; on success return the cleaned code
(`cleaned_content or code` — Python truthiness, so an empty cleaned string
falls back to `code`); on failure retry once on a truthy `cleaned_content`
and accept it if the retry validates, recording the auto-fixed errors as
warnings; otherwise report failure (`none`). -/
def validate_and_fix_code (parse fixSyntax : String → Option String)
    (cleanEscapes : String → String) (code : String) :
    Option String × List String :=
  let vr := validate_python_code parse fixSyntax cleanEscapes code
  if vr.is_valid then
    (some (match vr.cleaned_content with
           | some cc => if cc ≠ "" then cc else code
           | Option.none => code),
     vr.warnings)
  else
    match vr.cleaned_content with
    | some cc =>
        if cc ≠ "" then
          let fr := validate_python_code parse fixSyntax cleanEscapes cc
          if fr.is_valid then
            (some cc, vr.warnings ++ vr.errors.map (fun e => "Auto-fixed: " ++ e))
          else (Option.none, vr.warnings)
        else (Option.none, vr.warnings)
    | Option.none => (Option.none, vr.warnings)

/-- Whether `CodeExecutor.execute_code` reached `exec`: either the
pre-flight validation rejected the code and `exec` was never invoked, or
`exec(codeExecuted, namespace)` ran (its runtime outcome — success, or an
exception such as the restricted import gate refusing `import os` — is
external to the control flow this models). -/
inductive ExecAttempt where
  | rejected (msg : String)
  | ran (codeExecuted : String) (validationWarnings : List String)
deriving DecidableEq, Repr

/-- `CodeExecutor.execute_code` (lines 63-136), up to the invocation of
`exec`: run `_validate_and_fix_code` (or `_basic_code_validation` when the
validation engine import fails — `validationEngineAvailable` selects the
path; both are modelled); a `none` result aborts with the fixed failure
message and `exec` is never called; otherwise `exec` runs the validated
code. -/
def execute_code (parse fixSyntax bsFix : String → Option String)
    (cleanEscapes : String → String) (validationEngineAvailable : Bool)
    (code : String) : ExecAttempt :=
  let vw :=
    if validationEngineAvailable then
      validate_and_fix_code parse fixSyntax cleanEscapes code
    else basic_code_validation parse bsFix code
  match vw.1 with
  | Option.none => .rejected "Code validation failed: Unable to fix syntax errors"
  | some c => .ran c vw.2

/-- A value in the execution namespace after `exec`, for the result
extractor.  Object identity is modelled by the `oid` component: two
namespace entries bind the *same* Python object exactly when they carry
equal `PyObj` values (same constructor, same `oid`); independently
constructed objects (e.g. a deep copy) get distinct `oid`s.

* `figure` — an object with `to_json` and `show` attributes (a plotly
  figure); `json`/`html` are its `to_json()` / `to_html(...)` exports;
* `dataframe` — a `pd.DataFrame`; `payload` stands for its serialized
  `{type, shape, columns, head, dtypes}` record;
* `scalar` — any other value, serialized by `_serialize_value`. -/
inductive PyObj where
  | figure (oid : ℕ) (json html : String)
  | dataframe (oid : ℕ) (payload : String)
  | scalar (v : SerValue)
deriving DecidableEq, Repr

/-- An entry of the `results` dictionary built by `_extract_results`. -/
inductive ResEntry where
  | plotlyFig (json : String)
  | plotlyFigHtml (json html : String)
  | dataframeEntry (payload : String)
  | plain (v : SerValue)
deriving DecidableEq, Repr

/-- The priority list of conventional result-variable names
(code_executor.py, line 286), in source order. -/
def resultVars : List String :=
  ["result", "output", "fig", "figure", "plot", "chart", "summary",
   "analysis"]

/-- `CodeExecutor._serialize_value` restricted to the namespace-value
universe: a figure (`hasattr to_json`) becomes `{type: plotly_figure,
json}` (no HTML at this level), a `DataFrame` becomes its serialized
record, anything else is already a serialized scalar. -/
def serializeValueCE : PyObj → ResEntry
  | .figure _ j _ => .plotlyFig j
  | .dataframe _ p => .dataframeEntry p
  | .scalar v => .plain v

/-- Dictionary lookup `var_name in namespace` / `namespace[var_name]`. -/
def lookupNs (ns : List (String × PyObj)) (n : String) : Option PyObj :=
  match ns.find? (fun p => p.1 == n) with
  | some p => some p.2
  | Option.none => Option.none

/-- `CodeExecutor._extract_results` (lines 281-321), faithful to the
source: the namespace is scanned three times —

1. each conventional result variable present is emitted under its own
   name, serialized by `_serialize_value`;
2. every object with `to_json` and `show` attributes is *additionally*
   emitted under `plotly_figure_<name>` with both JSON and HTML exports;
3. every `DataFrame` other than the input `df` is emitted under
   `dataframe_<name>`.

There is no deduplication of any kind: two names bound to the same object
produce separate entries in every pass they qualify for.  The namespace is
a Python dict, so its names are unique and the emitted keys (bare names,
`plotly_figure_` and `dataframe_` prefixed names) never collide. -/
def extract_results (ns : List (String × PyObj)) :
    List (String × ResEntry) :=
  (resultVars.filterMap (fun v =>
    match lookupNs ns v with
    | some o => some (v, serializeValueCE o)
    | Option.none => Option.none))
  ++ (ns.filterMap (fun p =>
    match p.2 with
    | .figure _ j h => some ("plotly_figure_" ++ p.1, ResEntry.plotlyFigHtml j h)
    | _ => Option.none))
  ++ (ns.filterMap (fun p =>
    match p.2 with
    | .dataframe _ pl =>
        if p.1 ≠ "df" then some ("dataframe_" ++ p.1, ResEntry.dataframeEntry pl)
        else Option.none
    | _ => Option.none))

/-! ## Response buffer manager (`server/response_manager.py`)

`process_llm_response` is modelled as a pure function from the list of
chunks produced by the LLM generator (plus an optional exception raised by
that generator after its chunks) to the exact interleaved trace of buffer
state assignments and yielded events.  The two validation-engine entry
points it consumes — `validate_structured_response` and
`validate_python_code` — are universally quantified parameters (`vsr`,
`vpc`), so the temporal theorems hold for every validator behaviour. -/

/-- One chunk of the generation stream: `{field, content}`. -/
structure Chunk where
  field : String
  content : String
deriving DecidableEq, Repr

/-- `ResponseState` (response_manager.py, lines 21-30). -/
inductive ResponseState where
  | initializing
  | collecting
  | validating
  | validated
  | streaming
  | completed
  | failed
  | rolledBack
deriving DecidableEq, Repr

/-- `buffer.to_dict()` (lines 56-62). -/
structure RespDict where
  initial_response : String
  generated_code : String
  result_commentary : String
deriving DecidableEq, Repr

/-- The execution result the spec says gets attached to the buffer.  The
manager never constructs one (see claim C8), so only its shape matters. -/
structure ExecutionResult where
  success : Bool
  output : String
deriving DecidableEq, Repr

/-- `ResponseBuffer` (lines 33-62).  `validation_results` is a dict keyed
by `overall` / `initial_response` / `generated_code` /
`result_commentary`; it is modelled by four optional fields. -/
structure ResponseBuffer where
  initial_response : String := ""
  generated_code : String := ""
  result_commentary : String := ""
  state : ResponseState := .initializing
  valres_overall : Option ValidationResult := none
  valres_initial : Option ValidationResult := none
  valres_code : Option ValidationResult := none
  valres_commentary : Option ValidationResult := none
  errors : List String := []
  warnings : List String := []
  execution_results : Option ExecutionResult := none
deriving DecidableEq, Repr

/-- `ResponseBuffer.has_code` (lines 52-54). -/
def ResponseBuffer.has_code (b : ResponseBuffer) : Bool :=
  stripNonEmpty b.generated_code

/-- `ResponseBuffer.to_dict` (lines 56-62). -/
def ResponseBuffer.toDict (b : ResponseBuffer) : RespDict :=
  ⟨b.initial_response, b.generated_code, b.result_commentary⟩

/-- The chunk-collection loop (lines 105-114): each chunk *replaces* the
buffer's value for its field; chunks with any other `field` (for instance
the `execution_results` chunks produced by `app_v2._create_response_generator`)
are silently dropped. -/
def collectChunk (b : ResponseBuffer) (c : Chunk) : ResponseBuffer :=
  if c.field = "initial_response" then { b with initial_response := c.content }
  else if c.field = "generated_code" then { b with generated_code := c.content }
  else if c.field = "result_commentary" then { b with result_commentary := c.content }
  else b

/-- Collect a whole chunk stream. -/
def collectChunks (chunks : List Chunk) (b : ResponseBuffer) : ResponseBuffer :=
  chunks.foldl collectChunk b

/-- Python truthiness of an `Optional[str]`: present and non-empty. -/
def optTruthy : Option String → Bool
  | Option.none => false
  | some s => s ≠ ""

/-- `ResponseManager._validate_response` (lines 171-215), parameterized by
the two validation-engine calls: record the overall result and accumulate
its errors/warnings; record trivial per-field results for the non-empty
free-text fields; if code is present, validate it, substitute a truthy
`cleaned_content` when the code is valid, and accumulate its
errors/warnings; validation passes iff the accumulated error list is
empty. -/
def validate_response (vsr : RespDict → ValidationResult)
    (vpc : String → ValidationResult) (b : ResponseBuffer) :
    Bool × ResponseBuffer :=
  let overall := vsr b.toDict
  let b := { b with
    valres_overall := some overall
    errors := b.errors ++ overall.errors
    warnings := b.warnings ++ overall.warnings }
  let b :=
    if stripNonEmpty b.initial_response then
      { b with valres_initial := some ⟨true, [], [], Option.none⟩ }
    else b
  let b :=
    if b.has_code then
      let cr := vpc b.generated_code
      let b := { b with valres_code := some cr }
      let b :=
        if cr.is_valid && optTruthy cr.cleaned_content then
          { b with generated_code := cr.cleaned_content.getD b.generated_code }
        else b
      { b with errors := b.errors ++ cr.errors,
               warnings := b.warnings ++ cr.warnings }
    else b
  let b :=
    if stripNonEmpty b.result_commentary then
      { b with valres_commentary := some ⟨true, [], [], Option.none⟩ }
    else b
  (b.errors.isEmpty, b)

/-- One iteration of the `_attempt_recovery` loop (lines 231-251), with its
1-based attempt number: if code is present, its recorded validation result
is invalid and has a truthy `cleaned_content`, substitute the cleaned code,
append the recovery warning, and re-validate; if the re-validation passes,
store it, strip the superseded `Code validation:` errors, and succeed when
no other error remains.  Returns `some` on success, `none` to continue. -/
def recoveryStep (vpc : String → ValidationResult) (attemptNo : ℕ)
    (b : ResponseBuffer) : Option ResponseBuffer × ResponseBuffer :=
  if b.has_code then
    match b.valres_code with
    | some cr =>
        if !cr.is_valid && optTruthy cr.cleaned_content then
          let b := { b with
            generated_code := cr.cleaned_content.getD ""
            warnings := b.warnings ++
              ["Applied code recovery attempt " ++ toString attemptNo] }
          let ncr := vpc b.generated_code
          if ncr.is_valid then
            let b := { b with
              valres_code := some ncr
              errors := b.errors.filter
                (fun e => !strContainsSub e "Code validation:") }
            if (b.errors.filter
                (fun e => !strContainsSub e "Code validation:")).isEmpty then
              (some b, b)
            else (Option.none, b)
          else (Option.none, b)
        else (Option.none, b)
    | Option.none => (Option.none, b)
  else (Option.none, b)

/-- The bounded retry loop of `_attempt_recovery` (max 3 attempts; the
0.1 s sleep between attempts has no observable effect here). -/
def recoveryLoop (vpc : String → ValidationResult) :
    ℕ → ℕ → ResponseBuffer → Bool × ResponseBuffer
  | _, 0, b => (false, b)
  | attemptNo, rem + 1, b =>
      match recoveryStep vpc attemptNo b with
      | (some b, _) => (true, b)
      | (Option.none, b) => recoveryLoop vpc (attemptNo + 1) rem b

/-- `ResponseManager._attempt_recovery` (lines 217-257). -/
def attempt_recovery (vpc : String → ValidationResult)
    (b : ResponseBuffer) : Bool × ResponseBuffer :=
  recoveryLoop vpc 1 3 b

/-- `ResponseManager._rollback_response` (lines 259-278): mark the buffer
rolled back and clear all three content fields (errors and warnings are
kept for the terminal error event). -/
def rollback_response (b : ResponseBuffer) : ResponseBuffer :=
  { b with state := .rolledBack, initial_response := "",
           generated_code := "", result_commentary := "" }

/-- An event yielded by `process_llm_response`. -/
inductive RMEvent where
  | fieldComplete (field content : String)
  | warningsEv (warnings : List String)
  | responseComplete (response : RespDict)
      (execution_results : Option ExecutionResult)
  | errorValidation (message : String) (errors warnings : List String)
  | errorProcessing (message error : String)
deriving DecidableEq, Repr

/-- One element of the observable trace of a `process_llm_response` run:
either an assignment to `buffer.state` or a yielded event, in program
order. -/
inductive RMItem where
  | state (s : ResponseState)
  | yieldEv (e : RMEvent)
deriving DecidableEq, Repr

/-- `ResponseManager._stream_validated_response` (lines 280-337) as a
trace: set `STREAMING`, yield a `field_complete` event for each non-empty
field in the fixed order, a `warnings` event when warnings accumulated,
and the terminal `response_complete` event carrying `buffer.to_dict()` and
`buffer.execution_results`. -/
def stream_validated_response (b : ResponseBuffer) : List RMItem :=
  [RMItem.state .streaming]
  ++ (if b.initial_response ≠ "" then
        [RMItem.yieldEv (.fieldComplete "initial_response" b.initial_response)]
      else [])
  ++ (if b.generated_code ≠ "" then
        [RMItem.yieldEv (.fieldComplete "generated_code" b.generated_code)]
      else [])
  ++ (if b.result_commentary ≠ "" then
        [RMItem.yieldEv (.fieldComplete "result_commentary" b.result_commentary)]
      else [])
  ++ (if !b.warnings.isEmpty then [RMItem.yieldEv (.warningsEv b.warnings)]
      else [])
  ++ [RMItem.yieldEv (.responseComplete b.toDict b.execution_results)]

/-- `ResponseManager.process_llm_response` (lines 82-169) as a trace.

Inputs: the chunks the generator yields, and `genError` — `some e` when
the generator raises after those chunks (the `except` path of the
source).  The trace interleaves every assignment to `buffer.state` with
every yielded event, in program order:

* collect; validate; on success set `VALIDATED`, stream, set `COMPLETED`;
* on validation failure set `FAILED`, attempt recovery; on recovered
  success set `VALIDATED` and stream as above; otherwise roll back and
  yield the single terminal validation-error event;
* on a generator exception set `FAILED`, append the processing error, roll
  back, and yield the single terminal processing-error event. -/
def process_llm_response (vsr : RespDict → ValidationResult)
    (vpc : String → ValidationResult) (chunks : List Chunk)
    (genError : Option String) : List RMItem × ResponseBuffer :=
  let b1 := collectChunks chunks { state := .collecting }
  match genError with
  | some e =>
      let b2 := { b1 with
        state := .failed
        errors := b1.errors ++ ["Processing error: " ++ e] }
      let b3 := rollback_response b2
      ([RMItem.state .collecting, RMItem.state .failed,
        RMItem.state .rolledBack,
        RMItem.yieldEv (.errorProcessing "Response processing failed" e)],
       b3)
  | Option.none =>
      let v := validate_response vsr vpc { b1 with state := .validating }
      if v.1 then
        let b4 := { v.2 with state := .validated }
        ([RMItem.state .collecting, RMItem.state .validating,
          RMItem.state .validated]
          ++ stream_validated_response b4 ++ [RMItem.state .completed],
         { b4 with state := .completed })
      else
        let r := attempt_recovery vpc { v.2 with state := .failed }
        if r.1 then
          let b5 := { r.2 with state := .validated }
          ([RMItem.state .collecting, RMItem.state .validating,
            RMItem.state .failed, RMItem.state .validated]
            ++ stream_validated_response b5 ++ [RMItem.state .completed],
           { b5 with state := .completed })
        else
          let b5 := rollback_response r.2
          ([RMItem.state .collecting, RMItem.state .validating,
            RMItem.state .failed, RMItem.state .rolledBack,
            RMItem.yieldEv
              (.errorValidation "Response validation failed" b5.errors
                b5.warnings)],
           b5)

/-- The events of a trace, in order. -/
def eventsOf (items : List RMItem) : List RMEvent :=
  items.filterMap (fun i =>
    match i with
    | .yieldEv e => some e
    | .state _ => Option.none)

/-- An event that carries field content (a `delta` or `field_complete`
chunk in the claim's wording; the manager itself yields only
`field_complete` events — `delta` framing happens downstream in the
streaming controller). -/
def isContentEvent : RMEvent → Bool
  | .fieldComplete _ _ => true
  | _ => false

/-- `true` iff some content-carrying event is yielded strictly before the
buffer's state first reaches `VALIDATED` in the trace. -/
def contentBeforeValidated : List RMItem → Bool
  | [] => false
  | RMItem.state .validated :: _ => false
  | RMItem.yieldEv e :: rest => isContentEvent e || contentBeforeValidated rest
  | RMItem.state _ :: rest => contentBeforeValidated rest

/-- The run's validation ultimately failed: the generator did not raise,
direct validation failed, and recovery failed too.  Defined through the
same phase functions as `process_llm_response` itself. -/
def processValidationFailed (vsr : RespDict → ValidationResult)
    (vpc : String → ValidationResult) (chunks : List Chunk) : Bool :=
  let b1 := collectChunks chunks { state := .collecting }
  let v := validate_response vsr vpc { b1 with state := .validating }
  !v.1 && !(attempt_recovery vpc { v.2 with state := .failed }).1

/-! ## Shared concrete instances -/

/-- A breaker with the all-default `CircuitBreakerConfig`. -/
def defaultBreaker : ComponentCircuitBreaker := { config := {} }

/-- The configuration of claim C3: `failure_threshold = 3`, everything
else default (rate threshold `0.5`, timeout `60`, half-open cap `3`). -/
def cfgThreshold3 : CircuitBreakerConfig := { failure_threshold := 3 }

/-- A fresh breaker with `failure_threshold = 3`. -/
def freshBreaker3 : ComponentCircuitBreaker := { config := cfgThreshold3 }

/-! ## Claim C1 -/

/-- Claim C1, counterexample.  The claim says that for *every* float `v`
passed to `serialize_value` the result is null iff `v` is NaN and the
sentinel strings iff `v` is infinite.  A numpy `float64` NaN is a float
(`numpy.float64` subclasses Python `float`, so `isinstance(v, float)`
holds), but it carries a `dtype` attribute whose string `"float64"`
contains `"float"`, so serialize_value's dtype branch (lines 57-58)
returns `float(value)` — the NaN itself — before the
`isinstance(value, float)` branch can reach `_serialize_float`.  The same
happens to a numpy infinity, which is returned as-is rather than as the
sentinel string. -/
theorem serialize_value_numpy_nan_not_null :
    serialize_value (.npFloat .nan) = .float .nan ∧
    serialize_value (.npFloat .nan) ≠ .null ∧
    serialize_value (.npFloat .posInf) = .float .posInf ∧
    serialize_value (.npFloat .posInf) ≠ .str "Infinity" := by
  decide

/-- Claim C1, amended.  For every *plain* Python float (no `dtype`
attribute) the claim holds exactly as stated: the result is null iff the
float is NaN, is `"Infinity"`/`"-Infinity"` iff it is the positive or
negative infinity, and a finite float is returned unchanged.  A
dtype-carrying float subclass (numpy `float64`) is instead returned via
`float(value)` unchanged, bypassing the non-finite handling. -/
theorem serialize_value_float_spec (f : PyFloat) :
    (serialize_value (.float f) = .null ↔ f = .nan) ∧
    (serialize_value (.float f) = .str "Infinity" ↔ f = .posInf) ∧
    (serialize_value (.float f) = .str "-Infinity" ↔ f = .negInf) ∧
    (∀ q : ℚ, serialize_value (.float (.finite q)) = .float (.finite q)) ∧
    serialize_value (.npFloat f) = .float f := by
  cases f <;>
    simp [serialize_value, serializeBody, serialize_float]

/-! ## Claim C9 -/

/-- Claim C9.  `serialize_value` is total by construction (it is a Lean
function); whenever the serialization body raises internally, the
catch-all handler returns the placeholder string naming the value's
type — the exception is never propagated. -/
theorem serialize_value_total_placeholder (v : PyValue) (e : String)
    (h : serializeBody v = .error e) :
    serialize_value v =
      .str ("<Serialization Error: " ++ pyTypeName v ++ ">") := by
  unfold serialize_value
  rw [h]

/-- Witness for C9: a generic object whose `__str__` raises serializes to
the placeholder naming its type. -/
theorem serialize_value_total_placeholder_witness :
    serialize_value (.obj "Figure" "x" true) =
      .str ("<Serialization Error: " ++ pyTypeName (.obj "Figure" "x" true) ++ ">") :=
  serialize_value_total_placeholder (.obj "Figure" "x" true) "__str__ raised"
    rfl

/-! ## Claim C4 -/

/-- Claim C4, counterexample.  The claim says the *first* recorded failure
transitions a fresh, `HEALTHY` breaker to `FAILING`.  In fact the first
failed call on a fresh breaker (default config) makes the rolling failure
rate `1/1 = 1.0 ≥ 0.5`, so `_record_failure` opens the circuit
immediately: the state after the first failed call is `CIRCUIT_OPEN`, not
`FAILING`. -/
theorem fresh_breaker_first_failed_call_opens_circuit :
    (defaultBreaker.call 0 false).2.state = .circuitOpen ∧
    (defaultBreaker.call 0 false).2.state ≠ .failing := by
  decide

/-- Claim C4, amended.  After any recorded failure the state is
`CIRCUIT_OPEN` exactly when the consecutive-failure count reaches the
failure-count threshold or the post-failure rolling failure rate reaches
the failure-rate threshold; otherwise it is `DEGRADED` when at least two
consecutive failures have accumulated, else `FAILING`.  (On a fresh
breaker the first failed call therefore opens the circuit directly — its
failure rate is `1.0` — rather than stepping through `FAILING`.) -/
theorem record_failure_state_characterization
    (cb : ComponentCircuitBreaker) (now : ℤ) :
    (cb.record_failure now).state =
      (if cb.stats.consecutive_failures + 1 ≥ cb.config.failure_threshold ∨
          ErrorStats.failure_rate { cb.stats with
            failed_requests := cb.stats.failed_requests + 1
            consecutive_failures := cb.stats.consecutive_failures + 1
            last_failure_time := some now } ≥
            cb.config.failure_rate_threshold then
        ComponentState.circuitOpen
      else if cb.stats.consecutive_failures + 1 ≥ 2 then
        ComponentState.degraded
      else ComponentState.failing) := by
  simp only [ComponentCircuitBreaker.record_failure]
  split_ifs <;> first | rfl | omega

/-! ## Claim C3 -/

/-- Claim C3, counterexample.  The claim says that after the timeout has
elapsed, *exactly one* call is allowed through in the `RECOVERING` state.
Concretely (threshold 3, defaults otherwise): the first failed call at
`t = 0` opens the circuit (failure rate `1.0 ≥ 0.5`); a call at `t = 61`
(timeout `60` elapsed) transitions to `RECOVERING` and is allowed through;
but the breaker then *stays* `RECOVERING` with `half_open_requests = 1 <
max_requests_half_open = 3`, so the next call at `t = 62` is *also*
allowed through while `RECOVERING` — more than one call is admitted. -/
theorem circuit_breaker_second_recovering_call_allowed :
    (freshBreaker3.call 0 false).2.state = .circuitOpen ∧
    ((freshBreaker3.call 0 false).2.call 61 true).2.state = .recovering ∧
    (((freshBreaker3.call 0 false).2.call 61 true).2.call 62 true).1 =
      .invoked true := by
  decide

/-- Claim C3, amended.  For a fresh breaker with `failure_threshold = 3`:
after three consecutive failed calls the state is `CIRCUIT_OPEN` (in fact
the first failed call already opens the circuit, because the fresh failure
rate `1.0` reaches the `0.5` rate threshold, so the second and third calls
are refused); while the circuit is open and the timeout has not elapsed, a
call raises `CircuitBreakerOpenError` without invoking the wrapped
function and leaves the breaker unchanged; once the timeout has elapsed,
the next call moves the breaker to `RECOVERING` and is allowed through as
its first half-open request — and, more generally, every call finding the
breaker `RECOVERING` under the half-open cap is allowed through (up to
`max_requests_half_open` calls, not exactly one). -/
theorem circuit_breaker_open_refuse_recover
    (cb : ComponentCircuitBreaker) (now : ℤ) (b : Bool) :
    ((((freshBreaker3.call 0 false).2.call 0 false).2.call 0 false).2.state =
        .circuitOpen) ∧
    (cb.state = .circuitOpen → cb.should_attempt_reset now = false →
      cb.call now b = (.refused, cb)) ∧
    (cb.state = .circuitOpen → cb.should_attempt_reset now = true →
      0 < cb.config.max_requests_half_open →
      (cb.call now b).1 = .invoked b ∧
      (cb.call now b).2.half_open_requests = 1) ∧
    (cb.state = .recovering →
      cb.half_open_requests < cb.config.max_requests_half_open →
      (cb.call now b).1 = .invoked b) := by
  refine ⟨by decide, ?_, ?_, ?_⟩
  · intro hs hr
    simp [ComponentCircuitBreaker.call, hs, hr]
  · intro hs hr hcap
    have h0 : ¬ ((0 : ℕ) ≥ cb.config.max_requests_half_open) := by omega
    refine ⟨?_, ?_⟩ <;>
      cases b <;>
        simp [ComponentCircuitBreaker.call,
          ComponentCircuitBreaker.callFromRecoveringCheck, hs, hr, h0,
          ComponentCircuitBreaker.record_success,
          ComponentCircuitBreaker.record_failure] <;>
        (try split_ifs) <;> (try simp)
  · intro hs hcap
    have h1 : ¬ (cb.half_open_requests ≥ cb.config.max_requests_half_open) := by
      omega
    cases b <;>
      simp [ComponentCircuitBreaker.call,
        ComponentCircuitBreaker.callFromRecoveringCheck, hs, h1]

/-- Witness for the amended C3: the breaker opened by a failed call at
`t = 0` refuses a call at `t = 30` unchanged, and its first call at
`t = 61` (after the timeout) is allowed through as half-open request 1. -/
theorem circuit_breaker_open_refuse_recover_witness :
    ((freshBreaker3.call 0 false).2.call 30 true) =
      (.refused, (freshBreaker3.call 0 false).2) ∧
    (((freshBreaker3.call 0 false).2.call 61 true).1 = .invoked true ∧
      ((freshBreaker3.call 0 false).2.call 61 true).2.half_open_requests = 1) :=
  ⟨(circuit_breaker_open_refuse_recover (freshBreaker3.call 0 false).2 30
      true).2.1 (by decide) (by decide),
   (circuit_breaker_open_refuse_recover (freshBreaker3.call 0 false).2 61
      true).2.2.1 (by decide) (by decide) (by decide)⟩

/-! ## Claim C10 -/

/-- Claim C10.  When `call` refuses (raising `CircuitBreakerOpenError`),
the wrapped function is not invoked (the `refused` outcome is produced
before the invocation point in the source) and all four `ErrorStats`
counters are unchanged; and every call preserves the accounting invariant
`total_requests = successful_requests + failed_requests` — in particular a
call that is let through re-establishes it after its increments. -/
theorem circuit_breaker_call_stats_invariant
    (cb : ComponentCircuitBreaker) (now : ℤ) (b : Bool) :
    ((cb.call now b).1 = .refused →
      ((cb.call now b).2.stats.total_requests = cb.stats.total_requests ∧
       (cb.call now b).2.stats.successful_requests =
         cb.stats.successful_requests ∧
       (cb.call now b).2.stats.failed_requests = cb.stats.failed_requests ∧
       (cb.call now b).2.stats.consecutive_failures =
         cb.stats.consecutive_failures)) ∧
    (cb.stats.total_requests =
        cb.stats.successful_requests + cb.stats.failed_requests →
      (cb.call now b).2.stats.total_requests =
        (cb.call now b).2.stats.successful_requests +
          (cb.call now b).2.stats.failed_requests) := by
  unfold ComponentCircuitBreaker.call
    ComponentCircuitBreaker.callFromRecoveringCheck
  split_ifs <;>
    cases b <;>
      simp [ComponentCircuitBreaker.record_success,
        ComponentCircuitBreaker.record_failure] <;>
      first
        | omega
        | (split_ifs <;> first | omega | (simp; omega))

/-- Witness for C10: a refused call on an open breaker leaves all four
counters unchanged, and a successful first call on a fresh breaker
satisfies `total = successful + failed` afterwards. -/
theorem circuit_breaker_call_stats_invariant_witness :
    (((freshBreaker3.call 0 false).2.call 30 true).2.stats.total_requests =
        (freshBreaker3.call 0 false).2.stats.total_requests ∧
      ((freshBreaker3.call 0 false).2.call 30 true).2.stats.successful_requests =
        (freshBreaker3.call 0 false).2.stats.successful_requests ∧
      ((freshBreaker3.call 0 false).2.call 30 true).2.stats.failed_requests =
        (freshBreaker3.call 0 false).2.stats.failed_requests ∧
      ((freshBreaker3.call 0 false).2.call 30 true).2.stats.consecutive_failures =
        (freshBreaker3.call 0 false).2.stats.consecutive_failures) ∧
    (freshBreaker3.call 0 true).2.stats.total_requests =
      (freshBreaker3.call 0 true).2.stats.successful_requests +
        (freshBreaker3.call 0 true).2.stats.failed_requests :=
  ⟨(circuit_breaker_call_stats_invariant (freshBreaker3.call 0 false).2 30
      true).1 (by decide),
   (circuit_breaker_call_stats_invariant freshBreaker3 0 true).2 (by decide)⟩

/-! ## Streaming controller lemmas and claim C7 -/

/-- With enough fuel, concatenating the chunk pieces restores the list. -/
theorem chunkPiecesF_flatten (size : ℕ) (hsize : 0 < size) :
    ∀ (fuel : ℕ) (l : List Char), l.length ≤ fuel →
      (chunkPiecesF size fuel l).flatten = l := by
  intro fuel
  induction fuel with
  | zero =>
      intro l hl
      cases l with
      | nil => rfl
      | cons c rest => simp at hl
  | succ n ih =>
      intro l hl
      cases l with
      | nil => rfl
      | cons c rest =>
          simp only [chunkPiecesF, List.flatten_cons]
          rw [ih ((c :: rest).drop size)
              (by simp only [List.length_drop]; simp at hl ⊢; omega)]
          exact List.take_append_drop size (c :: rest)

/-- Concatenating the chunk pieces of a list restores the list. -/
theorem chunkPieces_flatten (size : ℕ) (hsize : 0 < size) (l : List Char) :
    (chunkPieces size l).flatten = l :=
  chunkPiecesF_flatten size hsize l.length l le_rfl

/-- The deltas of the events built from the pieces are the pieces. -/
theorem deltaEvents_map_delta (f : String) (base size : ℕ) :
    ∀ (i : ℕ) (ps : List (List Char)),
      (deltaEvents f base size i ps).map DeltaEvent.delta = ps := by
  intro i ps
  induction ps generalizing i with
  | nil => rfl
  | cons p rest ih => simp [deltaEvents, ih]

/-- Looking a key up after the in-place map update finds the new value. -/
theorem find_map_set (f : String) (n : ℕ) :
    ∀ l : List (String × ℕ),
      ((l.map (fun p => if p.1 == f then (f, n) else p)).find?
        (fun p => p.1 == f)) = some (f, n) ∨
      (l.find? (fun p => p.1 == f)) = Option.none := by
  intro l
  induction l with
  | nil => right; rfl
  | cons a rest ih =>
      by_cases h : a.1 = f
      · left
        have ha : (a.1 == f) = true := by simp [h]
        simp only [List.map_cons, if_pos ha, List.find?]
        simp
      · have ha : (a.1 == f) = false := by simp [h]
        simp only [List.map_cons, List.find?, ha, Bool.false_eq_true,
          if_false]
        exact ih

/-- Looking a key up after appending a fresh binding finds it, when the
key was absent. -/
theorem find_append_new (f : String) (n : ℕ) :
    ∀ l : List (String × ℕ),
      (l.find? (fun p => p.1 == f)) = Option.none →
      ((l ++ [(f, n)]).find? (fun p => p.1 == f)) = some (f, n) := by
  intro l
  induction l with
  | nil =>
      intro _
      simp only [List.nil_append, List.find?]
      simp
  | cons a rest ih =>
      intro h
      by_cases ha : a.1 = f
      · have ha' : (a.1 == f) = true := by simp [ha]
        simp only [List.find?, ha'] at h
        cases h
      · have ha' : (a.1 == f) = false := by simp [ha]
        simp only [List.find?, ha'] at h
        simp only [List.cons_append, List.find?, ha']
        exact ih h

/-- The field cursor after the dict assignment `positions[field] = n`
reads back `n`. -/
theorem getPos_setPos (l : List (String × ℕ)) (f : String) (n t : ℕ) :
    StreamingState.getPos ⟨setPos l f n, t⟩ f = n := by
  unfold StreamingState.getPos setPos
  by_cases h : (l.find? (fun p => p.1 == f)).isSome
  · simp only [h, if_true]
    rcases find_map_set f n l with hm | hn
    · rw [hm]
    · rw [hn] at h; simp at h
  · have hn : (l.find? (fun p => p.1 == f)) = Option.none := by
      cases hfind : l.find? (fun p => p.1 == f) with
      | none => rfl
      | some p => rw [hfind] at h; simp at h
    simp only [h, if_false, Bool.false_eq_true]
    rw [find_append_new f n l hn]

/-- Claim C7, counterexample.  The claim says the per-field cursor "never
exceeds the length of the field's current content".  Streaming
`generated_code` content `"hello"` from the fresh state advances the
cursor to 5; a subsequent call for the same field with the *shorter*
content `"ab"` sends nothing and leaves the cursor at 5, which exceeds the
current content's length 2. -/
theorem streaming_cursor_exceeds_shrunk_content :
    (stream_field_incrementally freshStreamingState "generated_code"
        "hello".toList 8).2.getPos "generated_code" = 5 ∧
    (stream_field_incrementally
        (stream_field_incrementally freshStreamingState "generated_code"
          "hello".toList 8).2
        "generated_code" "ab".toList 8).2.getPos "generated_code" = 5 ∧
    ¬ ((stream_field_incrementally
        (stream_field_incrementally freshStreamingState "generated_code"
          "hello".toList 8).2
        "generated_code" "ab".toList 8).2.getPos "generated_code" ≤
      ("ab".toList).length) := by
  decide

/-- Claim C7, amended.  For every state, field and content (chunk size
positive, sends succeeding): the cursor is monotonically non-decreasing;
after the call it equals `max old-cursor (len content)` — so it equals the
content's length (and never exceeds it) whenever the content is at least
as long as the old cursor, but when the content has shrunk below the
cursor the cursor stays put and may exceed the current content's length;
the call transmits exactly `content[cursor:]` (the concatenation of the
sent deltas); and an immediately repeated call for the same field with
identical content emits zero additional bytes. -/
theorem stream_field_incrementally_properties (st : StreamingState)
    (field : String) (content : List Char) (size : ℕ) (hsize : 0 < size) :
    st.getPos field ≤
      (stream_field_incrementally st field content size).2.getPos field ∧
    (stream_field_incrementally st field content size).2.getPos field =
      max (st.getPos field) content.length ∧
    ((stream_field_incrementally st field content size).1.map
        DeltaEvent.delta).flatten = content.drop (st.getPos field) ∧
    (stream_field_incrementally
        (stream_field_incrementally st field content size).2
        field content size).1 = [] := by
  unfold stream_field_incrementally
  by_cases h : content.length > st.getPos field
  · simp only [h, if_true, gt_iff_lt]
    have hset :
        StreamingState.getPos
          ⟨setPos st.field_positions field content.length,
           st.total_sent + ((chunkPieces size
             (content.drop (st.getPos field))).map List.length).sum⟩ field =
        content.length := getPos_setPos _ _ _ _
    refine ⟨?_, ?_, ?_, ?_⟩
    · rw [hset]; omega
    · rw [hset]; omega
    · rw [deltaEvents_map_delta, chunkPieces_flatten size hsize]
    · rw [hset]
      simp
  · simp only [h, if_false]
    have hd : content.drop (st.getPos field) = [] :=
      List.drop_eq_nil_of_le (by omega)
    refine ⟨le_rfl, by omega, by simp [hd], by simp [h]⟩

/-- Witness for the amended C7: streaming `"hello"` into the fresh state
for `generated_code` moves the cursor from 0 to 5 (=`max 0 5`), sends
exactly `"hello"`, and a repeated identical call sends nothing. -/
theorem stream_field_incrementally_properties_witness :
    freshStreamingState.getPos "generated_code" ≤
      (stream_field_incrementally freshStreamingState "generated_code"
        "hello".toList 8).2.getPos "generated_code" ∧
    (stream_field_incrementally freshStreamingState "generated_code"
        "hello".toList 8).2.getPos "generated_code" =
      max (freshStreamingState.getPos "generated_code")
        ("hello".toList).length ∧
    ((stream_field_incrementally freshStreamingState "generated_code"
        "hello".toList 8).1.map DeltaEvent.delta).flatten =
      ("hello".toList).drop (freshStreamingState.getPos "generated_code") ∧
    (stream_field_incrementally
        (stream_field_incrementally freshStreamingState "generated_code"
          "hello".toList 8).2
        "generated_code" "hello".toList 8).1 = [] :=
  stream_field_incrementally_properties freshStreamingState "generated_code"
    "hello".toList 8 (by decide)

/-! ## Claim C2 -/

/-- Claim C2.  For every chunk stream, every validator behaviour and every
generator outcome: no chunk carrying field content is yielded before the
buffer's state has reached `VALIDATED` (the trace checker
`contentBeforeValidated` reports `false`), and when validation ultimately
fails — direct validation and recovery both fail — the single terminal
validation-error event is the only chunk yielded. -/
theorem process_llm_response_atomicity (vsr : RespDict → ValidationResult)
    (vpc : String → ValidationResult) (chunks : List Chunk)
    (genError : Option String) :
    contentBeforeValidated
      (process_llm_response vsr vpc chunks genError).1 = false ∧
    (genError = Option.none →
      processValidationFailed vsr vpc chunks = true →
      ∃ errs warns,
        eventsOf (process_llm_response vsr vpc chunks Option.none).1 =
          [RMEvent.errorValidation "Response validation failed" errs
            warns]) := by
  constructor
  · unfold process_llm_response
    cases genError with
    | some e => rfl
    | none =>
        dsimp only
        split
        · rfl
        · split
          · rfl
          · rfl
  · intro hie hfail
    subst hie
    unfold processValidationFailed at hfail
    simp only [Bool.and_eq_true, Bool.not_eq_true'] at hfail
    obtain ⟨h1, h2⟩ := hfail
    unfold process_llm_response
    dsimp only
    rw [h1, h2]
    exact ⟨_, _, rfl⟩

/-- Witness for C2: with a structural validator that always rejects and no
code to recover, the run's only chunk is the terminal validation-error
event. -/
theorem process_llm_response_atomicity_witness :
    ∃ errs warns,
      eventsOf (process_llm_response
        (fun _ => ⟨false, ["structural error"], [], Option.none⟩)
        (fun _ => ⟨true, [], [], Option.none⟩)
        [⟨"initial_response", "hi"⟩] Option.none).1 =
      [RMEvent.errorValidation "Response validation failed" errs warns] :=
  (process_llm_response_atomicity
    (fun _ => ⟨false, ["structural error"], [], Option.none⟩)
    (fun _ => ⟨true, [], [], Option.none⟩)
    [⟨"initial_response", "hi"⟩] Option.none).2 rfl (by decide)

/-! ## Claim C8 -/

/-- Claim C8, evaluated at the failing input.  A chunk stream carrying a
non-empty `generated_code` (and even an `execution_results` chunk, as the
app's response generator produces) passes validation, yet the manager's
run yields a terminal `response_complete` event whose `execution_results`
is `None`, and the buffer's `execution_results` stays `None`:
`process_llm_response` never invokes the code executor and silently drops
the `execution_results` chunk — contradicting the claim that the manager
executes the code via the `code_executor` circuit breaker and attaches the
`ExecutionResult` before streaming. -/
theorem process_llm_response_no_execution_attach :
    eventsOf (process_llm_response
      (fun _ => ⟨true, [], [], Option.none⟩)
      (fun _ => ⟨true, [], [], Option.none⟩)
      [⟨"initial_response", "Analyzing the data"⟩,
       ⟨"generated_code", "result = 1 + 1"⟩,
       ⟨"execution_results", "dropped by the manager"⟩,
       ⟨"result_commentary", "Done"⟩] Option.none).1 =
      [RMEvent.fieldComplete "initial_response" "Analyzing the data",
       RMEvent.fieldComplete "generated_code" "result = 1 + 1",
       RMEvent.fieldComplete "result_commentary" "Done",
       RMEvent.responseComplete
         ⟨"Analyzing the data", "result = 1 + 1", "Done"⟩ Option.none] ∧
    (process_llm_response
      (fun _ => ⟨true, [], [], Option.none⟩)
      (fun _ => ⟨true, [], [], Option.none⟩)
      [⟨"initial_response", "Analyzing the data"⟩,
       ⟨"generated_code", "result = 1 + 1"⟩,
       ⟨"execution_results", "dropped by the manager"⟩,
       ⟨"result_commentary", "Done"⟩]
      Option.none).2.execution_results = Option.none := by
  decide

/-! ## Claim C5 -/

/-- Claim C5, evaluated at the failing input.  Binding the *same* figure
object (`oid = 1`) to both `fig` and `result` — the namespace produced by
`fig = px.bar(...); result = fig` — makes `_extract_results` emit *four*
entries (`result`, `fig`, `plotly_figure_fig`, `plotly_figure_result`),
not the single `fig`-keyed entry the claim (and the repository's own
`test_fix_verification.py`, which expects exactly one entry preferring
`fig`) requires: the extractor performs no identity-based deduplication. -/
theorem extract_results_duplicate_entries :
    extract_results
      [("fig", PyObj.figure 1 "J" "H"), ("result", PyObj.figure 1 "J" "H")] =
      [("result", ResEntry.plotlyFig "J"), ("fig", ResEntry.plotlyFig "J"),
       ("plotly_figure_fig", ResEntry.plotlyFigHtml "J" "H"),
       ("plotly_figure_result", ResEntry.plotlyFigHtml "J" "H")] ∧
    (extract_results
      [("fig", PyObj.figure 1 "J" "H"),
       ("result", PyObj.figure 1 "J" "H")]).length ≠ 1 := by
  decide

/-! ## Claim C6 -/

/-- Claim C6, counterexample.  The claim says every code string containing
`import os` (without safe-import context) fails validation with a security
error and is never executed.  But the security scan actually run by
`execute_code` — `ValidationEngine._validate_code_security` — only flags
the attribute pattern `\bos\.`, not the import statement itself: the code
`"import os"` (which contains no safe-import substring) passes
`validate_python_code` and `execute_code` reaches `exec` with it.  (At
runtime the sandbox's restricted import gate then raises `ImportError`
inside `exec`, but the code *is* executed.)  The `ast.parse` oracle is
instantiated with "always parses", which is its true behaviour on
`"import os"`, the only input inspected here; the repair oracles are
irrelevant on this path. -/
theorem execute_code_import_os_runs :
    execute_code (fun _ => Option.none) (fun _ => Option.none)
        (fun _ => Option.none) id true "import os" =
      ExecAttempt.ran "import os" [] ∧
    (validate_python_code (fun _ => Option.none) (fun _ => Option.none) id
        "import os").is_valid = true ∧
    safeImportsCE.any
      (fun s => strContainsSub (lowerStr "import os") s) = false := by
  decide

/-- Claim C6, amended.  The substring-denylist check the claim describes
lives in `CodeExecutor.validate_code` — which the HTTP `execute-code`
endpoint calls before executing, but `CodeExecutor.execute_code` itself
does not: every code string containing `import os` with no allow-listed
safe-import substring is rejected by `validate_code` with the
security-error message naming `import os`; the executor's own pre-flight
scan (`_validate_code_security`) only rejects `os.` attribute access, so
bare `import os` passes it and reaches `exec`, where the restricted import
gate blocks the import at runtime. -/
theorem validate_code_rejects_import_os (code : String)
    (h1 : strContainsSub (lowerStr code) "import os" = true)
    (h2 : safeImportsCE.any
      (fun s => strContainsSub (lowerStr code) s) = false) :
    validate_code code =
      (false, "Potentially dangerous operation detected: import os") := by
  unfold validate_code
  dsimp only
  rw [h2]
  simp only [dangerousPatternsCE, List.find?, h1, Bool.not_false,
    Bool.and_true, Bool.and_self]
  rfl

/-- Witness for the amended C6: a code string that imports `os` and calls
into it, with no safe import anywhere, is rejected by `validate_code` with
the `import os` security error. -/
theorem validate_code_rejects_import_os_witness :
    validate_code "import os\nos.getcwd()" =
      (false, "Potentially dangerous operation detected: import os") :=
  validate_code_rejects_import_os "import os\nos.getcwd()" (by decide)
    (by decide)

end SIMA3
